import Mathlib

/-!
Shallow embedding of the datacenter-audit tracking service
(Express + PostgreSQL backend: src/models/Audit.js, src/models/Issue.js,
src/routes/audits.js, src/routes/issues.js, src/routes/incidents.js).

The relational store is a pair of lists of rows.  SQL NOW() is modelled by
an explicit clock argument; UUID generation by an explicit fresh-id
argument.  Statuses, severities and device types are the string literals
the source persists.  Optional columns and optional request fields are
Option values; the JavaScript truthiness guards in the query builders
(if (datacenter) ...) are modelled as Option matches.
-/

set_option linter.unusedVariables false

/-- A row of the audits table. -/
structure AuditRow where
  id : String
  technician_id : String
  datacenter : String
  data_hall : String
  walkthrough_id : Option String
  status : String
  created_at : Nat
  completed_at : Option Nat
  updated_at : Nat
deriving DecidableEq, Repr

/-- A row of the issues table. -/
structure IssueRow where
  id : String
  audit_id : String
  rack_location : Option String
  device_type : String
  device_details : Option String
  status : String
  psu_id : Option String
  u_height : Option String
  severity : String
  comments : Option String
  created_at : Nat
  updated_at : Nat
  resolved_at : Option Nat
deriving DecidableEq, Repr

/-- The database state used by the audit and issue models. -/
structure Store where
  audits : List AuditRow
  issues : List IssueRow
deriving DecidableEq, Repr

/-- An HTTP response: ok carries the JSON data payload, err carries the
status code and the error message of the source handler. -/
inductive Resp (α : Type) where
  | ok : α → Resp α
  | err : Nat → String → Resp α
deriving DecidableEq, Repr

/-- Audit.create (models/Audit.js): INSERT with status "active",
completed_at absent (NULL), created_at/updated_at = NOW(). -/
def Audit.create (s : Store) (auditId technicianId datacenter dataHall : String)
    (walkthroughId : Option String) (now : Nat) : Store × AuditRow :=
  let row : AuditRow :=
    { id := auditId, technician_id := technicianId, datacenter := datacenter,
      data_hall := dataHall, walkthrough_id := walkthroughId, status := "active",
      created_at := now, completed_at := none, updated_at := now }
  ({ s with audits := s.audits ++ [row] }, row)

/-- Audit.findById (models/Audit.js): SELECT ... WHERE a.id = id
(the joined technician columns and issue count are not modelled; the
audit columns a.* are what the handlers consult). -/
def Audit.findById (s : Store) (id : String) : Option AuditRow :=
  s.audits.find? (fun a => a.id == id)

/-- Audit.updateStatus (models/Audit.js): UPDATE audits SET status,
completed_at = CASE WHEN status = "completed" THEN NOW() ELSE completed_at END,
updated_at = NOW() WHERE id = id RETURNING *; the second component is
rows[0] of the RETURNING set. -/
def Audit.updateStatus (s : Store) (id status : String) (now : Nat) :
    Store × Option AuditRow :=
  let f := fun (a : AuditRow) =>
    { a with status := status,
             completed_at := if status == "completed" then some now else a.completed_at,
             updated_at := now }
  ({ s with audits := s.audits.map (fun a => if a.id == id then f a else a) },
   (s.audits.find? (fun a => a.id == id)).map f)

/-- Audit.complete (models/Audit.js): updateStatus with "completed". -/
def Audit.complete (s : Store) (id : String) (now : Nat) : Store × Option AuditRow :=
  Audit.updateStatus s id "completed" now

/-- Audit.cancel (models/Audit.js): updateStatus with "cancelled". -/
def Audit.cancel (s : Store) (id : String) (now : Nat) : Store × Option AuditRow :=
  Audit.updateStatus s id "cancelled" now

/-- Audit.delete (models/Audit.js): UPDATE audits SET status = "deleted",
updated_at = NOW() WHERE id = id RETURNING * (soft delete; completed_at is
not touched). -/
def Audit.softDelete (s : Store) (id : String) (now : Nat) : Store × Option AuditRow :=
  let f := fun (a : AuditRow) => { a with status := "deleted", updated_at := now }
  ({ s with audits := s.audits.map (fun a => if a.id == id then f a else a) },
   (s.audits.find? (fun a => a.id == id)).map f)

/-- Filter structure of Audit.findAll (models/Audit.js); a none field is an
absent (or JavaScript-falsy) filter that adds no WHERE clause. -/
structure AuditFilters where
  limit : Nat := 50
  offset : Nat := 0
  datacenter : Option String := none
  dataHall : Option String := none
  status : Option String := none
  technicianId : Option String := none
  startDate : Option Nat := none
  endDate : Option Nat := none
deriving DecidableEq, Repr

/-- Equality test for an optional filter field: absent means unconstrained. -/
def optEq (f : Option String) (v : String) : Bool :=
  match f with
  | none => true
  | some x => v == x

/-- The conjunction of WHERE clauses that Audit.findAll appends for the
supplied filter fields. -/
def auditMatches (f : AuditFilters) (a : AuditRow) : Bool :=
  optEq f.datacenter a.datacenter &&
  optEq f.dataHall a.data_hall &&
  optEq f.status a.status &&
  optEq f.technicianId a.technician_id &&
  (match f.startDate with
   | none => true
   | some t => decide (t ≤ a.created_at)) &&
  (match f.endDate with
   | none => true
   | some t => decide (a.created_at ≤ t))

/-- ORDER BY created_at DESC as a relation on audit rows. -/
def createdDescA (a b : AuditRow) : Prop := b.created_at ≤ a.created_at

instance : DecidableRel createdDescA := fun a b => Nat.decLe _ _

instance : IsTotal AuditRow createdDescA :=
  ⟨fun a b => Nat.le_total b.created_at a.created_at⟩

instance : IsTrans AuditRow createdDescA :=
  ⟨fun _ _ _ hab hbc => Nat.le_trans hbc hab⟩

/-- Audit.findAll (models/Audit.js): WHERE clauses for the supplied
filters, ORDER BY a.created_at DESC, LIMIT limit OFFSET offset. -/
def Audit.findAll (s : Store) (f : AuditFilters) : List AuditRow :=
  ((List.insertionSort createdDescA (s.audits.filter (fun a => auditMatches f a))).drop
      f.offset).take f.limit

/-- The optional fields of the POST /api/issues request body
(routes/issues.js); required string fields are plain strings. -/
structure IssueInput where
  auditId : String
  rackLocation : Option String := none
  deviceType : String
  deviceDetails : Option String := none
  status : Option String := none
  psuId : Option String := none
  uHeight : Option String := none
  severity : String
  comments : Option String := none
deriving DecidableEq, Repr

/-- Issue.create (models/Issue.js): INSERT of the supplied fields with
created_at/updated_at = NOW(); resolved_at is not in the column list, so
it is NULL.  The status argument is the value the route passes (the route
applies the "open" default, not the model). -/
def Issue.create (s : Store) (issueId : String) (b : IssueInput) (status : String)
    (now : Nat) : Store × IssueRow :=
  let row : IssueRow :=
    { id := issueId, audit_id := b.auditId, rack_location := b.rackLocation,
      device_type := b.deviceType, device_details := b.deviceDetails,
      status := status, psu_id := b.psuId, u_height := b.uHeight,
      severity := b.severity, comments := b.comments,
      created_at := now, updated_at := now, resolved_at := none }
  ({ s with issues := s.issues ++ [row] }, row)

/-- Issue.findById (models/Issue.js): SELECT i.* ... WHERE i.id = id (the
joined audit and technician columns are denormalized extras; the issue
columns are what the handlers consult). -/
def Issue.findById (s : Store) (id : String) : Option IssueRow :=
  s.issues.find? (fun i => i.id == id)

/-- Filter structure of Issue.findAll (models/Issue.js). -/
structure IssueFilters where
  limit : Nat := 50
  offset : Nat := 0
  auditId : Option String := none
  severity : Option String := none
  status : Option String := none
  deviceType : Option String := none
  datacenter : Option String := none
  dataHall : Option String := none
  startDate : Option Nat := none
  endDate : Option Nat := none
deriving DecidableEq, Repr

/-- The conjunction of WHERE clauses Issue.findAll appends.  The
datacenter and dataHall clauses constrain columns of the LEFT JOINed
parent audit: when the parent row is absent the joined column is NULL and
the SQL comparison is not satisfied, hence Option.any. -/
def issueMatches (s : Store) (f : IssueFilters) (i : IssueRow) : Bool :=
  optEq f.auditId i.audit_id &&
  optEq f.severity i.severity &&
  optEq f.status i.status &&
  optEq f.deviceType i.device_type &&
  (match f.datacenter with
   | none => true
   | some d => (Audit.findById s i.audit_id).any (fun a => a.datacenter == d)) &&
  (match f.dataHall with
   | none => true
   | some d => (Audit.findById s i.audit_id).any (fun a => a.data_hall == d)) &&
  (match f.startDate with
   | none => true
   | some t => decide (t ≤ i.created_at)) &&
  (match f.endDate with
   | none => true
   | some t => decide (i.created_at ≤ t))

/-- ORDER BY created_at DESC as a relation on issue rows. -/
def createdDescI (a b : IssueRow) : Prop := b.created_at ≤ a.created_at

instance : DecidableRel createdDescI := fun a b => Nat.decLe _ _

instance : IsTotal IssueRow createdDescI :=
  ⟨fun a b => Nat.le_total b.created_at a.created_at⟩

instance : IsTrans IssueRow createdDescI :=
  ⟨fun _ _ _ hab hbc => Nat.le_trans hbc hab⟩

/-- Issue.findAll (models/Issue.js): WHERE clauses for the supplied
filters, ORDER BY i.created_at DESC, LIMIT limit OFFSET offset. -/
def Issue.findAll (s : Store) (f : IssueFilters) : List IssueRow :=
  ((List.insertionSort createdDescI (s.issues.filter (fun i => issueMatches s f i))).drop
      f.offset).take f.limit

/-- Issue.updateStatus (models/Issue.js): UPDATE issues SET status,
resolved_at = CASE WHEN status = "resolved" THEN NOW() ELSE resolved_at END,
updated_at = NOW() WHERE id = id RETURNING *. -/
def Issue.updateStatus (s : Store) (id status : String) (now : Nat) :
    Store × Option IssueRow :=
  let f := fun (i : IssueRow) =>
    { i with status := status,
             resolved_at := if status == "resolved" then some now else i.resolved_at,
             updated_at := now }
  ({ s with issues := s.issues.map (fun i => if i.id == id then f i else i) },
   (s.issues.find? (fun i => i.id == id)).map f)

/-- Issue.resolve (models/Issue.js): updateStatus with "resolved". -/
def Issue.resolve (s : Store) (id : String) (now : Nat) : Store × Option IssueRow :=
  Issue.updateStatus s id "resolved" now

/-- Issue.reopen (models/Issue.js): updateStatus with "open". -/
def Issue.reopen (s : Store) (id : String) (now : Nat) : Store × Option IssueRow :=
  Issue.updateStatus s id "open" now

/-- The optional fields of the PUT /api/issues/:id request body
(routes/issues.js). -/
structure IssueUpdate where
  rackLocation : Option String := none
  deviceType : Option String := none
  deviceDetails : Option String := none
  status : Option String := none
  psuId : Option String := none
  uHeight : Option String := none
  severity : Option String := none
  comments : Option String := none
deriving DecidableEq, Repr

/-- Issue.update (models/Issue.js): UPDATE issues SET each column to
COALESCE(param, column), updated_at = NOW() WHERE id = id RETURNING *;
resolved_at is not in the SET list. -/
def Issue.update (s : Store) (id : String) (u : IssueUpdate) (now : Nat) :
    Store × Option IssueRow :=
  let f := fun (i : IssueRow) =>
    { i with
      rack_location := match u.rackLocation with
        | none => i.rack_location
        | some v => some v,
      device_type := u.deviceType.getD i.device_type,
      device_details := match u.deviceDetails with
        | none => i.device_details
        | some v => some v,
      status := u.status.getD i.status,
      psu_id := match u.psuId with
        | none => i.psu_id
        | some v => some v,
      u_height := match u.uHeight with
        | none => i.u_height
        | some v => some v,
      severity := u.severity.getD i.severity,
      comments := match u.comments with
        | none => i.comments
        | some v => some v,
      updated_at := now }
  ({ s with issues := s.issues.map (fun i => if i.id == id then f i else i) },
   (s.issues.find? (fun i => i.id == id)).map f)

/-- Issue.delete (models/Issue.js): DELETE FROM issues WHERE id = id
RETURNING *. -/
def Issue.hardDelete (s : Store) (id : String) : Store × Option IssueRow :=
  ({ s with issues := s.issues.filter (fun i => !(i.id == id)) },
   s.issues.find? (fun i => i.id == id))

/-- Validation of the PUT /api/audits/:id body (routes/audits.js):
body("status").isIn(["active", "completed", "cancelled"]); a missing or
non-string status is none and fails validation. -/
def auditStatusBodyValid : Option String → Bool
  | none => false
  | some st => st == "active" || st == "completed" || st == "cancelled"

/-- The PUT /api/audits/:id handler (routes/audits.js): validation, 404 on
missing audit, 403 when the requester is not the technician, then
Audit.updateStatus with the requested status (no check of the current
status). -/
def putAuditStatus (s : Store) (userId id : String) (body : Option String)
    (now : Nat) : Store × Resp AuditRow :=
  if !auditStatusBodyValid body then
    (s, Resp.err 400 "Validation failed")
  else
    match Audit.findById s id with
    | none => (s, Resp.err 404 "Audit not found")
    | some a =>
      if a.technician_id != userId then
        (s, Resp.err 403 "You can only update your own audits")
      else
        match Audit.updateStatus s id (body.getD "") now with
        | (s2, some u) => (s2, Resp.ok u)
        | (s2, none) => (s2, Resp.err 500 "Failed to update audit")

/-- The POST /api/audits/:id/complete handler (routes/audits.js): 404 on
missing audit, 403 for non-owner, 400 when the audit is already
completed, else Audit.complete. -/
def postAuditComplete (s : Store) (userId id : String) (now : Nat) :
    Store × Resp AuditRow :=
  match Audit.findById s id with
  | none => (s, Resp.err 404 "Audit not found")
  | some a =>
    if a.technician_id != userId then
      (s, Resp.err 403 "You can only complete your own audits")
    else if a.status == "completed" then
      (s, Resp.err 400 "Audit is already completed")
    else
      match Audit.complete s id now with
      | (s2, some u) => (s2, Resp.ok u)
      | (s2, none) => (s2, Resp.err 500 "Failed to complete audit")

/-- The DELETE /api/audits/:id handler (routes/audits.js): 404 on missing
audit, 403 for non-owner, 400 when the audit is completed, else the soft
delete. -/
def deleteAudit (s : Store) (userId id : String) (now : Nat) :
    Store × Resp AuditRow :=
  match Audit.findById s id with
  | none => (s, Resp.err 404 "Audit not found")
  | some a =>
    if a.technician_id != userId then
      (s, Resp.err 403 "You can only delete your own audits")
    else if a.status == "completed" then
      (s, Resp.err 400 "Cannot delete completed audits")
    else
      match Audit.softDelete s id now with
      | (s2, some u) => (s2, Resp.ok u)
      | (s2, none) => (s2, Resp.err 500 "Failed to delete audit")

/-- Length bound for an optional text field, absent passes. -/
def optLenLE (o : Option String) (n : Nat) : Bool :=
  match o with
  | none => true
  | some v => decide (v.length ≤ n)

/-- The device_type enumeration of the validators (routes/issues.js). -/
def deviceTypeValid (d : String) : Bool :=
  d == "power_supply_unit" || d == "power_distribution_unit" ||
    d == "rear_door_heat_exchanger"

/-- The severity enumeration of the validators (routes/issues.js). -/
def severityValid (v : String) : Bool :=
  v == "critical" || v == "warning" || v == "healthy"

/-- The issue status enumeration of the validators (routes/issues.js). -/
def issueStatusValid (v : String) : Bool :=
  v == "open" || v == "resolved" || v == "closed"

/-- Validation chain of POST /api/issues (routes/issues.js): auditId
notEmpty, enumerations for deviceType/severity/optional status, length
bounds on the optional text fields. -/
def issueCreateValid (b : IssueInput) : Bool :=
  (b.auditId != "") &&
  optLenLE b.rackLocation 100 &&
  deviceTypeValid b.deviceType &&
  severityValid b.severity &&
  (match b.status with
   | none => true
   | some st => issueStatusValid st) &&
  optLenLE b.psuId 100 &&
  optLenLE b.uHeight 20 &&
  optLenLE b.comments 1000

/-- The POST /api/issues handler (routes/issues.js): validation, 404 when
the parent audit is missing, 403 when the requester is not the parent
audit technician, 400 when the parent audit is not active, else
Issue.create with status defaulted to "open". -/
def postIssue (s : Store) (userId : String) (b : IssueInput) (newId : String)
    (now : Nat) : Store × Resp IssueRow :=
  if !issueCreateValid b then
    (s, Resp.err 400 "Validation failed")
  else
    match Audit.findById s b.auditId with
    | none => (s, Resp.err 404 "Audit not found")
    | some audit =>
      if audit.technician_id != userId then
        (s, Resp.err 403 "You can only create issues for your own audits")
      else if audit.status != "active" then
        (s, Resp.err 400 "Cannot add issues to inactive audits")
      else
        let created := Issue.create s newId b (b.status.getD "open") now
        (created.1, Resp.ok created.2)

/-- Validation chain of PUT /api/issues/:id (routes/issues.js): all fields
optional, enumerations and length bounds as at creation. -/
def issueUpdateValid (u : IssueUpdate) : Bool :=
  optLenLE u.rackLocation 100 &&
  (match u.deviceType with
   | none => true
   | some d => deviceTypeValid d) &&
  (match u.severity with
   | none => true
   | some v => severityValid v) &&
  (match u.status with
   | none => true
   | some v => issueStatusValid v) &&
  optLenLE u.psuId 100 &&
  optLenLE u.uHeight 20 &&
  optLenLE u.comments 1000

/-- The PUT /api/issues/:id handler (routes/issues.js): validation, 404 on
missing issue, then Issue.update; the requester identity is never
consulted. -/
def putIssue (s : Store) (userId id : String) (u : IssueUpdate) (now : Nat) :
    Store × Resp IssueRow :=
  if !issueUpdateValid u then
    (s, Resp.err 400 "Validation failed")
  else
    match Issue.findById s id with
    | none => (s, Resp.err 404 "Issue not found")
    | some _ =>
      match Issue.update s id u now with
      | (s2, some r) => (s2, Resp.ok r)
      | (s2, none) => (s2, Resp.err 500 "Failed to update issue")

/-- The POST /api/issues/:id/resolve handler (routes/issues.js): 404 on
missing issue, 400 when the issue is already resolved, else
Issue.resolve; the requester identity is never consulted. -/
def postIssueResolve (s : Store) (userId id : String) (now : Nat) :
    Store × Resp IssueRow :=
  match Issue.findById s id with
  | none => (s, Resp.err 404 "Issue not found")
  | some i =>
    if i.status == "resolved" then
      (s, Resp.err 400 "Issue is already resolved")
    else
      match Issue.resolve s id now with
      | (s2, some r) => (s2, Resp.ok r)
      | (s2, none) => (s2, Resp.err 500 "Failed to resolve issue")

/-- The POST /api/issues/:id/reopen handler (routes/issues.js): 404 on
missing issue, 400 when the issue is already open, else Issue.reopen; the
requester identity is never consulted. -/
def postIssueReopen (s : Store) (userId id : String) (now : Nat) :
    Store × Resp IssueRow :=
  match Issue.findById s id with
  | none => (s, Resp.err 404 "Issue not found")
  | some i =>
    if i.status == "open" then
      (s, Resp.err 400 "Issue is already open")
    else
      match Issue.reopen s id now with
      | (s2, some r) => (s2, Resp.ok r)
      | (s2, none) => (s2, Resp.err 500 "Failed to reopen issue")

/-- The DELETE /api/issues/:id handler (routes/issues.js): 404 on missing
issue, else Issue hard delete; the requester identity is never
consulted. -/
def deleteIssue (s : Store) (userId id : String) : Store × Resp IssueRow :=
  match Issue.findById s id with
  | none => (s, Resp.err 404 "Issue not found")
  | some _ =>
    match Issue.hardDelete s id with
    | (s2, some r) => (s2, Resp.ok r)
    | (s2, none) => (s2, Resp.err 500 "Failed to delete issue")

/-- The GET /api/incidents/:id handler (routes/incidents.js): 404 on
missing issue, 404 when the issue severity is not critical, else the
issue. -/
def getIncidentById (s : Store) (id : String) : Resp IssueRow :=
  match Issue.findById s id with
  | none => Resp.err 404 "Incident not found"
  | some i =>
    if i.severity != "critical" then
      Resp.err 404 "Issue is not classified as an incident"
    else
      Resp.ok i

/-- The PUT /api/incidents/:id/status handler (routes/incidents.js): 400
unless the body status is "open" or "resolved", 404 on missing issue, 400
when the issue severity is not critical, else Issue.updateStatus. -/
def putIncidentStatus (s : Store) (id : String) (body : Option String)
    (now : Nat) : Store × Resp IssueRow :=
  match body with
  | none => (s, Resp.err 400 "Status must be either \"open\" or \"resolved\"")
  | some st =>
    if !(st == "open" || st == "resolved") then
      (s, Resp.err 400 "Status must be either \"open\" or \"resolved\"")
    else
      match Issue.findById s id with
      | none => (s, Resp.err 404 "Incident not found")
      | some i =>
        if i.severity != "critical" then
          (s, Resp.err 400 "Only critical issues can be managed as incidents")
        else
          match Issue.updateStatus s id st now with
          | (s2, some r) => (s2, Resp.ok r)
          | (s2, none) => (s2, Resp.err 500 "Failed to update incident status")

/-- The timestamp invariant of the spec for audits: completed_at is
non-null iff status = completed. -/
def auditTimestampInv (a : AuditRow) : Bool :=
  a.completed_at.isSome == (a.status == "completed")

/-- The timestamp invariant of the spec for issues: resolved_at is
non-null iff status = resolved. -/
def issueTimestampInv (i : IssueRow) : Bool :=
  i.resolved_at.isSome == (i.status == "resolved")

/-- Fixture: an active audit owned by technician t1. -/
def auditActive : AuditRow :=
  { id := "a1", technician_id := "t1", datacenter := "DC1", data_hall := "H1",
    walkthrough_id := none, status := "active", created_at := 1,
    completed_at := none, updated_at := 1 }

/-- Fixture: a completed audit owned by technician t1. -/
def auditDone : AuditRow :=
  { id := "a2", technician_id := "t1", datacenter := "DC1", data_hall := "H2",
    walkthrough_id := none, status := "completed", created_at := 2,
    completed_at := some 4, updated_at := 4 }

/-- Fixture: an open critical issue on audit a1. -/
def issueOpen : IssueRow :=
  { id := "i1", audit_id := "a1", rack_location := some "A01",
    device_type := "power_supply_unit", device_details := none,
    status := "open", psu_id := none, u_height := none,
    severity := "critical", comments := none,
    created_at := 3, updated_at := 3, resolved_at := none }

/-- Fixture: a resolved warning issue on audit a1. -/
def issueDone : IssueRow :=
  { id := "i2", audit_id := "a1", rack_location := some "B07",
    device_type := "power_distribution_unit", device_details := none,
    status := "resolved", psu_id := none, u_height := none,
    severity := "warning", comments := none,
    created_at := 5, updated_at := 6, resolved_at := some 6 }

/-- Fixture store holding the four rows above. -/
def baseStore : Store :=
  { audits := [auditActive, auditDone], issues := [issueOpen, issueDone] }

/-- Claim C1 is false on the code: the PUT /api/audits/:id handler never
inspects the current status, so the owner of the completed audit a2 can
move it back to "active" (and the store then records "active"). -/
theorem c1_put_reopens_completed_counterexample :
    (putAuditStatus baseStore "t1" "a2" (some "active") 9).2 =
      Resp.ok { auditDone with status := "active", updated_at := 9 } ∧
    (Audit.findById (putAuditStatus baseStore "t1" "a2" (some "active") 9).1 "a2").map
        AuditRow.status = some "active" := by
  decide

/-- Claim C2 is false on the code: reopening the resolved issue i2 (which
satisfies the timestamp invariant) yields a store whose i2 row has status
"open" while resolved_at stays non-null, because Issue.updateStatus keeps
the old resolved_at for every status other than "resolved". -/
theorem c2_reopen_keeps_resolved_at_counterexample :
    issueTimestampInv issueDone = true ∧
    (Issue.findById (postIssueReopen baseStore "t1" "i2" 9).1 "i2").map
        (fun i => (i.status, i.resolved_at)) = some ("open", some 6) ∧
    ((postIssueReopen baseStore "t1" "i2" 9).1.issues.all issueTimestampInv) = false := by
  decide

/-- Claim C1 amended: the only terminal-state guards the code has are on
the dedicated actions for a completed audit — completing or deleting a
completed audit is refused with 400 and leaves the store unchanged — but
the PUT status update ignores the current status entirely: the owner can
set any audit, whatever its current status (completed, cancelled or
deleted included), to any of active/completed/cancelled, and a cancelled
or deleted audit can still be completed through the dedicated action. -/
theorem c1_terminal_status_guards (s : Store) (uid id : String) (a : AuditRow)
    (now : Nat) (hfind : Audit.findById s id = some a)
    (hown : a.technician_id = uid) :
    (a.status = "completed" →
      postAuditComplete s uid id now = (s, Resp.err 400 "Audit is already completed") ∧
      deleteAudit s uid id now = (s, Resp.err 400 "Cannot delete completed audits")) ∧
    (a.status ≠ "completed" →
      ∃ r, (postAuditComplete s uid id now).2 = Resp.ok r ∧ r.status = "completed") ∧
    (∀ st, auditStatusBodyValid (some st) = true →
      ∃ r, (putAuditStatus s uid id (some st) now).2 = Resp.ok r ∧ r.status = st) := by
  have hfind' : s.audits.find? (fun x => x.id == id) = some a := hfind
  refine ⟨fun hst => ⟨?_, ?_⟩, fun hst => ?_, fun st hv => ?_⟩
  · simp [postAuditComplete, hfind, hown, hst]
  · simp [deleteAudit, hfind, hown, hst]
  · simp [postAuditComplete, hfind, hown, hst, Audit.complete, Audit.updateStatus, hfind']
  · simp [putAuditStatus, hv, hfind, hown, Audit.updateStatus, hfind']

/-- Witness for C1 amended at the fixture store: the completed audit a2
refuses the complete and delete actions. -/
theorem c1_terminal_status_guards_witness :
    postAuditComplete baseStore "t1" "a2" 9 =
      (baseStore, Resp.err 400 "Audit is already completed") ∧
    deleteAudit baseStore "t1" "a2" 9 =
      (baseStore, Resp.err 400 "Cannot delete completed audits") :=
  (c1_terminal_status_guards baseStore "t1" "a2" auditDone 9 (by decide) rfl).1 rfl

/-- Claim C2 amended: creation establishes the timestamp invariant (a
created audit is active with null completed_at; an issue created through
the route with no status is open with null resolved_at), and updateStatus
into completed/resolved stamps the timestamp so the updated row satisfies
the invariant; but updateStatus to any other status retains the previous
timestamp — in particular reopen keeps resolved_at non-null on the now
open issue — so the biconditional is not preserved by every operation. -/
theorem c2_timestamp_stamping (s : Store) (auditId tech dc dh : String)
    (w : Option String) (uid : String) (b : IssueInput) (newId id : String)
    (now : Nat) :
    auditTimestampInv (Audit.create s auditId tech dc dh w now).2 = true ∧
    (∀ s2 r, postIssue s uid b newId now = (s2, Resp.ok r) → b.status = none →
      issueTimestampInv r = true) ∧
    (∀ r, (Audit.updateStatus s id "completed" now).2 = some r →
      auditTimestampInv r = true) ∧
    (∀ r, (Issue.updateStatus s id "resolved" now).2 = some r →
      issueTimestampInv r = true) ∧
    (∀ i r, Issue.findById s id = some i → (Issue.reopen s id now).2 = some r →
      r.status = "open" ∧ r.resolved_at = i.resolved_at) := by
  have hinv : auditTimestampInv (Audit.create s auditId tech dc dh w now).2 = true := by
    simp [Audit.create, auditTimestampInv]
  refine ⟨hinv, fun s2 r hok hnone => ?_, fun r hr => ?_, fun r hr => ?_,
    fun i r hi hr => ?_⟩
  · unfold postIssue at hok
    by_cases hval : issueCreateValid b
    · simp only [hval, Bool.not_true, Bool.false_eq_true, if_false] at hok
      rcases hfa : Audit.findById s b.auditId with _ | audit
      · rw [hfa] at hok
        simp at hok
      · rw [hfa] at hok
        by_cases hto : audit.technician_id = uid
        · by_cases hstat : audit.status = "active"
          · simp [hto, hstat, Issue.create] at hok
            rcases hok with ⟨hs2, hr⟩
            simp [← hr, issueTimestampInv, hnone]
          · simp [hto, hstat] at hok
        · simp [hto] at hok
    · simp [hval] at hok
  · rcases hfa : s.audits.find? (fun x => x.id == id) with _ | a
    · simp [Audit.updateStatus, hfa] at hr
    · simp [Audit.updateStatus, hfa] at hr
      simp [← hr, auditTimestampInv]
  · rcases hfa : s.issues.find? (fun x => x.id == id) with _ | i
    · simp [Issue.updateStatus, hfa] at hr
    · simp [Issue.updateStatus, hfa] at hr
      simp [← hr, issueTimestampInv]
  · have hi' : s.issues.find? (fun x => x.id == id) = some i := hi
    simp [Issue.reopen, Issue.updateStatus, hi'] at hr
    simp [← hr]

/-- The row that reopening the fixture issue i2 at time 9 produces. -/
def issueReopened2 : IssueRow := { issueDone with status := "open", updated_at := 9 }

/-- Witness for C2 amended: reopening the resolved fixture issue i2
returns a row that is open but still carries resolved_at = 6. -/
theorem c2_timestamp_stamping_witness :
    (Issue.reopen baseStore "i2" 9).2 = some issueReopened2 ∧
    issueReopened2.status = "open" ∧ issueReopened2.resolved_at = some 6 := by
  have h := (c2_timestamp_stamping baseStore "x" "t" "d" "h" none "t1"
    { auditId := "a1", deviceType := "power_supply_unit", severity := "critical" }
    "i9" "i2" 9).2.2.2.2 issueDone issueReopened2 (by decide) (by decide)
  exact ⟨by decide, h.1, h.2.trans rfl⟩

/-- Claim C3 is false on the code: the PUT /api/audits/:id handler runs
payload validation before the ownership check, so requester t2 (not the
owner of a1) with the invalid payload status = "deleted" receives 400
Validation failed, not 403 PermissionDenied. -/
theorem c3_invalid_payload_counterexample :
    (putAuditStatus baseStore "t2" "a1" (some "deleted") 9).2 =
      Resp.err 400 "Validation failed" := by
  decide

/-- Claim C3 amended: for an existing audit and a requester other than its
technician, DELETE always yields PermissionDenied (403) with the store
unchanged (DELETE carries no payload), and PUT yields PermissionDenied
whenever the payload passes validation; an invalid PUT payload is instead
rejected 400 by validation before the ownership check runs. -/
theorem c3_ownership_guard (s : Store) (uid id : String) (a : AuditRow) (now : Nat)
    (hfind : Audit.findById s id = some a) (hown : a.technician_id ≠ uid) :
    deleteAudit s uid id now =
      (s, Resp.err 403 "You can only delete your own audits") ∧
    (∀ st, auditStatusBodyValid (some st) = true →
      putAuditStatus s uid id (some st) now =
        (s, Resp.err 403 "You can only update your own audits")) := by
  refine ⟨?_, fun st hv => ?_⟩
  · simp [deleteAudit, hfind, hown]
  · simp [putAuditStatus, hv, hfind, hown]

/-- Witness for C3 amended: requester t2 on audit a1 owned by t1. -/
theorem c3_ownership_guard_witness :
    deleteAudit baseStore "t2" "a1" 9 =
      (baseStore, Resp.err 403 "You can only delete your own audits") ∧
    putAuditStatus baseStore "t2" "a1" (some "completed") 9 =
      (baseStore, Resp.err 403 "You can only update your own audits") :=
  ⟨(c3_ownership_guard baseStore "t2" "a1" auditActive 9 (by decide) (by decide)).1,
   (c3_ownership_guard baseStore "t2" "a1" auditActive 9 (by decide) (by decide)).2
     "completed" (by decide)⟩

/-- Claim C4: resolving an already-resolved issue is refused with the
Conflict-class 400 response and the store is unchanged, and completing an
already-completed audit (by its owner) is likewise refused with 400 and
the store unchanged. -/
theorem c4_conflict_idempotence (s : Store) (uid id : String) (now : Nat) :
    (∀ i, Issue.findById s id = some i → i.status = "resolved" →
      postIssueResolve s uid id now =
        (s, Resp.err 400 "Issue is already resolved")) ∧
    (∀ a, Audit.findById s id = some a → a.technician_id = uid →
      a.status = "completed" →
      postAuditComplete s uid id now =
        (s, Resp.err 400 "Audit is already completed")) := by
  refine ⟨fun i hi hst => ?_, fun a ha hown hst => ?_⟩
  · simp [postIssueResolve, hi, hst]
  · simp [postAuditComplete, ha, hown, hst]

/-- Witness for C4 at the fixtures: resolved issue i2 and completed audit
a2. -/
theorem c4_conflict_idempotence_witness :
    postIssueResolve baseStore "t2" "i2" 9 =
      (baseStore, Resp.err 400 "Issue is already resolved") ∧
    postAuditComplete baseStore "t1" "a2" 9 =
      (baseStore, Resp.err 400 "Audit is already completed") :=
  ⟨(c4_conflict_idempotence baseStore "t2" "i2" 9).1 issueDone (by decide) (by decide),
   (c4_conflict_idempotence baseStore "t1" "a2" 9).2 auditDone (by decide) rfl
     (by decide)⟩

/-- Fixture: a valid issue-creation body naming audit a1. -/
def issueInputA : IssueInput :=
  { auditId := "a1", deviceType := "power_supply_unit", severity := "critical" }

/-- Claim C5: for a creation request naming an existing parent audit, a
valid payload from a non-owner yields 403, a valid payload from the owner
of a non-active audit yields 400 with no insertion, and an issue row is
inserted exactly when the payload is valid, the requester owns the parent
audit and the parent audit is active. -/
theorem c5_issue_creation_guards (s : Store) (uid : String) (b : IssueInput)
    (newId : String) (now : Nat) (a : AuditRow)
    (hfind : Audit.findById s b.auditId = some a) :
    (issueCreateValid b = true → a.technician_id ≠ uid →
      postIssue s uid b newId now =
        (s, Resp.err 403 "You can only create issues for your own audits")) ∧
    (issueCreateValid b = true → a.technician_id = uid → a.status ≠ "active" →
      postIssue s uid b newId now =
        (s, Resp.err 400 "Cannot add issues to inactive audits")) ∧
    ((postIssue s uid b newId now).1.issues ≠ s.issues →
      issueCreateValid b = true ∧ a.technician_id = uid ∧ a.status = "active") ∧
    (issueCreateValid b = true → a.technician_id = uid → a.status = "active" →
      (postIssue s uid b newId now).1.issues =
        s.issues ++ [(Issue.create s newId b (b.status.getD "open") now).2]) := by
  refine ⟨fun hv hto => ?_, fun hv hto hstat => ?_, fun hne => ?_,
    fun hv hto hstat => ?_⟩
  · simp [postIssue, hv, hfind, hto]
  · simp [postIssue, hv, hfind, hto, hstat]
  · by_cases hv : issueCreateValid b = true
    · by_cases hto : a.technician_id = uid
      · by_cases hstat : a.status = "active"
        · exact ⟨hv, hto, hstat⟩
        · exact absurd (by simp [postIssue, hv, hfind, hto, hstat]) hne
      · exact absurd (by simp [postIssue, hv, hfind, hto]) hne
    · exact absurd (by simp [postIssue, hv]) hne
  · simp [postIssue, hv, hfind, hto, hstat, Issue.create]

/-- Witness for C5 at the fixtures: the valid body issueInputA is refused
403 for requester t2 and inserted for owner t1. -/
theorem c5_issue_creation_guards_witness :
    postIssue baseStore "t2" issueInputA "i9" 9 =
      (baseStore, Resp.err 403 "You can only create issues for your own audits") ∧
    (postIssue baseStore "t1" issueInputA "i9" 9).1.issues =
      baseStore.issues ++
        [(Issue.create baseStore "i9" issueInputA "open" 9).2] :=
  ⟨(c5_issue_creation_guards baseStore "t2" issueInputA "i9" 9 auditActive
      (by decide)).1 (by decide) (by decide),
   (c5_issue_creation_guards baseStore "t1" issueInputA "i9" 9 auditActive
      (by decide)).2.2.2 (by decide) rfl rfl⟩

/-- Claim C6: an issue is served by GET /api/incidents/:id only when its
severity is critical (otherwise the request is rejected), and a status
update through PUT /api/incidents/:id/status succeeds only when the
requested status is open or resolved and the issue is critical; every
other requested status, "closed" included, is rejected with 400 and the
store is unchanged, and a non-critical issue is never updated through
this surface. -/
theorem c6_incident_surface (s : Store) (id : String) (body : Option String)
    (now : Nat) :
    (∀ i, Issue.findById s id = some i → i.severity ≠ "critical" →
      getIncidentById s id = Resp.err 404 "Issue is not classified as an incident") ∧
    (∀ r, getIncidentById s id = Resp.ok r →
      Issue.findById s id = some r ∧ r.severity = "critical") ∧
    (∀ st, body = some st → st ≠ "open" → st ≠ "resolved" →
      putIncidentStatus s id body now =
        (s, Resp.err 400 "Status must be either \"open\" or \"resolved\"")) ∧
    (∀ i, Issue.findById s id = some i → i.severity ≠ "critical" →
      (putIncidentStatus s id body now).1 = s ∧
      ∀ r, (putIncidentStatus s id body now).2 ≠ Resp.ok r) ∧
    (∀ s2 r, putIncidentStatus s id body now = (s2, Resp.ok r) →
      r.severity = "critical" ∧ (body = some "open" ∨ body = some "resolved")) := by
  refine ⟨fun i hfi hsev => ?_, fun r hok => ?_, fun st hbody h1 h2 => ?_,
    fun i hfi hsev => ?_, fun s2 r hok => ?_⟩
  · simp [getIncidentById, hfi, hsev]
  · rcases hfi : Issue.findById s id with _ | i
    · simp [getIncidentById, hfi] at hok
    · by_cases hsev : i.severity = "critical"
      · simp [getIncidentById, hfi, hsev] at hok
        exact ⟨congrArg some hok, hok ▸ hsev⟩
      · simp [getIncidentById, hfi, hsev] at hok
  · subst hbody
    simp [putIncidentStatus, h1, h2]
  · rcases body with _ | st
    · simp [putIncidentStatus]
    · by_cases hst : (st == "open" || st == "resolved") = true
      · simp [putIncidentStatus, hst, hfi, hsev]
      · simp [putIncidentStatus, hst]
  · rcases body with _ | st
    · simp [putIncidentStatus] at hok
    · by_cases hst : (st == "open" || st == "resolved") = true
      · rcases hfi : Issue.findById s id with _ | i
        · simp [putIncidentStatus, hst, hfi] at hok
        · by_cases hsev : i.severity = "critical"
          · have hfi' : s.issues.find? (fun x => x.id == id) = some i := hfi
            simp [putIncidentStatus, hst, hfi, hsev, Issue.updateStatus, hfi'] at hok
            have hor : st = "open" ∨ st = "resolved" := by simpa using hst
            obtain ⟨h1, h2⟩ := hok
            subst h2
            refine ⟨rfl, ?_⟩
            rcases hor with h | h
            · exact Or.inl (by rw [h])
            · exact Or.inr (by rw [h])
          · simp [putIncidentStatus, hst, hfi, hsev] at hok
      · simp [putIncidentStatus, hst] at hok

/-- Witness for C6 at the fixtures: the warning-severity issue i2 is not
served as an incident, and "closed" is rejected on the incident status
surface. -/
theorem c6_incident_surface_witness :
    getIncidentById baseStore "i2" =
      Resp.err 404 "Issue is not classified as an incident" ∧
    putIncidentStatus baseStore "i1" (some "closed") 9 =
      (baseStore, Resp.err 400 "Status must be either \"open\" or \"resolved\"") :=
  ⟨(c6_incident_surface baseStore "i2" none 9).1 issueDone (by decide) (by decide),
   (c6_incident_surface baseStore "i1" (some "closed") 9).2.2.1 "closed" rfl
     (by decide) (by decide)⟩

/-- Claim C7: every record returned by findAll is a stored record that
satisfies every supplied filter field (for audits and for issues), the
result is ordered by creation time descending, at most limit records are
returned, and when every filter field is omitted no record is excluded
(for a window large enough to hold the whole table). -/
theorem c7_findAll_filter_contract (s : Store) (f : AuditFilters) (g : IssueFilters) :
    (∀ r ∈ Audit.findAll s f, r ∈ s.audits ∧ auditMatches f r = true) ∧
    List.Sorted createdDescA (Audit.findAll s f) ∧
    (Audit.findAll s f).length ≤ f.limit ∧
    (∀ r ∈ Issue.findAll s g, r ∈ s.issues ∧ issueMatches s g r = true) ∧
    List.Sorted createdDescI (Issue.findAll s g) ∧
    (Issue.findAll s g).length ≤ g.limit ∧
    (f.datacenter = none → f.dataHall = none → f.status = none →
      f.technicianId = none → f.startDate = none → f.endDate = none →
      f.offset = 0 → s.audits.length ≤ f.limit →
      ∀ r ∈ s.audits, r ∈ Audit.findAll s f) := by
  have hsubA : List.Sublist (Audit.findAll s f)
      (List.insertionSort createdDescA (s.audits.filter (fun a => auditMatches f a))) :=
    (List.take_sublist _ _).trans (List.drop_sublist _ _)
  have hsubI : List.Sublist (Issue.findAll s g)
      (List.insertionSort createdDescI (s.issues.filter (fun i => issueMatches s g i))) :=
    (List.take_sublist _ _).trans (List.drop_sublist _ _)
  refine ⟨fun r hr => ?_, ?_, ?_, fun r hr => ?_, ?_, ?_,
    fun h1 h2 h3 h4 h5 h6 h7 h8 r hr => ?_⟩
  · have hmem : r ∈ s.audits.filter (fun a => auditMatches f a) :=
      (List.perm_insertionSort createdDescA _).subset (hsubA.subset hr)
    exact ⟨(List.mem_filter.mp hmem).1, (List.mem_filter.mp hmem).2⟩
  · exact List.Pairwise.sublist hsubA (List.sorted_insertionSort createdDescA _)
  · exact (List.length_take _ _).trans_le (min_le_left _ _)
  · have hmem : r ∈ s.issues.filter (fun i => issueMatches s g i) :=
      (List.perm_insertionSort createdDescI _).subset (hsubI.subset hr)
    exact ⟨(List.mem_filter.mp hmem).1, (List.mem_filter.mp hmem).2⟩
  · exact List.Pairwise.sublist hsubI (List.sorted_insertionSort createdDescI _)
  · exact (List.length_take _ _).trans_le (min_le_left _ _)
  · have hall : s.audits.filter (fun a => auditMatches f a) = s.audits :=
      List.filter_eq_self.mpr
        (fun a _ => by simp [auditMatches, h1, h2, h3, h4, h5, h6, optEq])
    unfold Audit.findAll
    rw [hall, h7, List.drop_zero, List.take_of_length_le]
    · exact (List.perm_insertionSort createdDescA s.audits).mem_iff.mpr hr
    · rw [(List.perm_insertionSort createdDescA s.audits).length_eq]
      exact h8

/-- Witness for C7 at the fixtures: the active-status filter admits the
active audit a1 and it indeed matches the filter. -/
theorem c7_findAll_filter_contract_witness :
    auditActive ∈ baseStore.audits ∧
    auditMatches { status := some "active" } auditActive = true :=
  (c7_findAll_filter_contract baseStore { status := some "active" } {}).1
    auditActive (by decide)

/-- Concatenating singleton windows at successive offsets reproduces the
prefix of length N, for any list and any N within bounds. -/
theorem take_one_flatMap {α : Type} (l : List α) : ∀ N, N ≤ l.length →
    (List.range N).flatMap (fun i => (l.drop i).take 1) = l.take N := by
  intro N
  induction N with
  | zero => intro h; simp
  | succ n ih =>
    intro h
    have hn : n < l.length := h
    have h1 : ∀ (x : α) (xs : List α), (x :: xs).take 1 = [x] := fun x xs => rfl
    rw [List.range_succ, List.flatMap_append, ih (Nat.le_of_succ_le h),
      List.flatMap_cons, List.flatMap_nil, List.append_nil,
      List.drop_eq_getElem_cons hn, h1, List.take_succ,
      List.getElem?_eq_getElem hn]
    rfl

/-- Claim C8: over a fixed store and filter set, the concatenation of the
findAll results with limit 1 at offsets 0 .. N-1 equals the single
findAll with limit N, for every N at most the number of matching rows. -/
theorem c8_limit_one_traversal (s : Store) (f : AuditFilters) (N : Nat)
    (hN : N ≤ (s.audits.filter (fun a => auditMatches f a)).length) :
    (List.range N).flatMap
        (fun i => Audit.findAll s { f with limit := 1, offset := i }) =
      Audit.findAll s { f with limit := N, offset := 0 } := by
  have h : (List.range N).flatMap
      (fun i => ((List.insertionSort createdDescA
        (s.audits.filter (fun a => auditMatches f a))).drop i).take 1) =
      ((List.insertionSort createdDescA
        (s.audits.filter (fun a => auditMatches f a))).drop 0).take N := by
    rw [List.drop_zero]
    exact take_one_flatMap _ N
      (by rw [(List.perm_insertionSort _ _).length_eq]; exact hN)
  exact h

/-- Witness for C8 at the fixtures: two singleton pages equal one page of
two over the unfiltered audit table. -/
theorem c8_limit_one_traversal_witness :
    (List.range 2).flatMap
        (fun i => Audit.findAll baseStore { limit := 1, offset := i }) =
      Audit.findAll baseStore { limit := 2, offset := 0 } :=
  c8_limit_one_traversal baseStore {} 2 (by decide)

/-- Claim C9: a successful creation through POST /api/issues followed by a
fetch of the fresh id returns exactly the created record, whose fields
equal every field supplied in the body, with status defaulted to "open"
when the body supplied none. -/
theorem c9_create_fetch_roundtrip (s : Store) (uid : String) (b : IssueInput)
    (newId : String) (now : Nat) (s2 : Store) (r : IssueRow)
    (hfresh : ∀ i ∈ s.issues, i.id ≠ newId)
    (hok : postIssue s uid b newId now = (s2, Resp.ok r)) :
    Issue.findById s2 newId = some r ∧
    r.audit_id = b.auditId ∧ r.rack_location = b.rackLocation ∧
    r.device_type = b.deviceType ∧ r.device_details = b.deviceDetails ∧
    r.psu_id = b.psuId ∧ r.u_height = b.uHeight ∧ r.severity = b.severity ∧
    r.comments = b.comments ∧ r.status = b.status.getD "open" := by
  by_cases hval : issueCreateValid b = true
  · rcases hfa : Audit.findById s b.auditId with _ | audit
    · simp [postIssue, hval, hfa] at hok
    · by_cases hto : audit.technician_id = uid
      · by_cases hstat : audit.status = "active"
        · simp [postIssue, hval, hfa, hto, hstat, Issue.create] at hok
          obtain ⟨hs2, hr⟩ := hok
          subst hs2
          subst hr
          have hnone : s.issues.find? (fun i => i.id == newId) = none :=
            List.find?_eq_none.mpr (fun x hx => by simp [hfresh x hx])
          refine ⟨?_, rfl, rfl, rfl, rfl, rfl, rfl, rfl, rfl, rfl⟩
          unfold Issue.findById
          rw [show (({ s with issues := s.issues ++
              [{ id := newId, audit_id := b.auditId, rack_location := b.rackLocation,
                 device_type := b.deviceType, device_details := b.deviceDetails,
                 status := b.status.getD "open", psu_id := b.psuId,
                 u_height := b.uHeight, severity := b.severity,
                 comments := b.comments, created_at := now, updated_at := now,
                 resolved_at := none }] } : Store)).issues = s.issues ++
              [{ id := newId, audit_id := b.auditId, rack_location := b.rackLocation,
                 device_type := b.deviceType, device_details := b.deviceDetails,
                 status := b.status.getD "open", psu_id := b.psuId,
                 u_height := b.uHeight, severity := b.severity,
                 comments := b.comments, created_at := now, updated_at := now,
                 resolved_at := none }] from rfl,
            List.find?_append, hnone, Option.none_or]
          rw [List.find?_cons_of_pos _ (by simp)]
        · simp [postIssue, hval, hfa, hto, hstat] at hok
      · simp [postIssue, hval, hfa, hto] at hok
  · simp [postIssue, hval] at hok

/-- The row that the fixture creation request issueInputA inserts. -/
def issueCreatedA : IssueRow := (Issue.create baseStore "i9" issueInputA "open" 9).2

/-- Witness for C9: creating issueInputA as t1 under fresh id i9 and then
fetching i9 returns the created record, with the defaulted open status. -/
theorem c9_create_fetch_roundtrip_witness :
    Issue.findById (postIssue baseStore "t1" issueInputA "i9" 9).1 "i9" =
      some issueCreatedA ∧
    issueCreatedA.status = issueInputA.status.getD "open" := by
  have h := c9_create_fetch_roundtrip baseStore "t1" issueInputA "i9" 9
    (postIssue baseStore "t1" issueInputA "i9" 9).1 issueCreatedA
    (by decide) (by decide)
  exact ⟨h.1, h.2.2.2.2.2.2.2.2.2⟩

/-- Claim C10: the issue mutation handlers (general update, resolve,
reopen, delete) never consult the requester identity: their result — the
new store and the response — is literally the same function of the store
and the input for any two requesters. -/
theorem c10_issue_mutations_ignore_identity (s : Store) (id : String)
    (u : IssueUpdate) (now : Nat) (uid1 uid2 : String) :
    putIssue s uid1 id u now = putIssue s uid2 id u now ∧
    postIssueResolve s uid1 id now = postIssueResolve s uid2 id now ∧
    postIssueReopen s uid1 id now = postIssueReopen s uid2 id now ∧
    deleteIssue s uid1 id = deleteIssue s uid2 id :=
  ⟨rfl, rfl, rfl, rfl⟩
